import Mathlib

/-!
Shallow embedding of `src/scripts/chatbot_training_generator.py`
(`StructuredTelemetryGenerator`): the telemetry record builder
(`capture_request_telemetry`), the per-request derived metrics
(`categorize_response_time`, `calculate_health_score`), the scenario
aggregator (`generate_scenario_metrics`) and the persisted-record trace of
`run_scenario` / `run_full_telemetry_session`.

Numbers are modelled exactly: Python floats become rationals, Python ints
become integers.  Python's `round(x, d)` (round-half-to-even to `d` decimal
places) is modelled by `roundTo d`.  Wall-clock timestamps, request ids and
the HTTP outcomes delivered by the `requests` library are inputs of the
embedded functions.
-/

/-- Round-half-to-even to the nearest integer, the idealisation of Python's
built-in `round` on a nonnegative-exponent scale. -/
def roundHalfEven (x : ℚ) : ℤ :=
  if x - ⌊x⌋ < 1/2 then ⌊x⌋
  else if 1/2 < x - ⌊x⌋ then ⌊x⌋ + 1
  else if ⌊x⌋ % 2 = 0 then ⌊x⌋ else ⌊x⌋ + 1

/-- Python's `round(x, d)`: round-half-to-even to `d` decimal places. -/
def roundTo (d : ℕ) (x : ℚ) : ℚ :=
  (roundHalfEven (x * 10 ^ d) : ℚ) / 10 ^ d

/-- `categorize_response_time` from the source: classify a response time
into one of five latency buckets. -/
def categorize_response_time (duration : ℚ) : String :=
  if duration < 1/10 then "excellent"
  else if duration < 1/2 then "good"
  else if duration < 1 then "acceptable"
  else if duration < 3 then "slow"
  else "unacceptable"

/-- `calculate_health_score` from the source: start at 100, deduct for the
status-code class, deduct for slow responses, clamp below at 0. -/
def calculate_health_score (status_code : ℤ) (duration : ℚ) : ℤ :=
  let score : ℤ := 100
  let score := if status_code ≥ 500 then score - 50
    else if status_code ≥ 400 then score - 30
    else score
  let score := if duration > 3 then score - 30
    else if duration > 1 then score - 15
    else if duration > 1/2 then score - 5
    else score
  max 0 score

/-- Modelled from the spec's words (reference definition of the health
score, to be compared with `calculate_health_score` from the source):
start at 100; subtract 50 if status ≥ 500, else 30 if status ≥ 400;
independently subtract 30 if elapsed > 3.0, else 15 if > 1.0, else 5 if
> 0.5; clamp to a minimum of 0. -/
def healthScoreRef (s : ℤ) (t : ℚ) : ℤ :=
  let statusDeduction : ℤ := if s ≥ 500 then 50 else if s ≥ 400 then 30 else 0
  let latencyDeduction : ℤ :=
    if t > 3 then 30 else if t > 1 then 15 else if t > 1/2 then 5 else 0
  max 0 (100 - statusDeduction - latencyDeduction)

/-- Severity bucket of a status code: 0 for `s < 400`, 1 for
`400 ≤ s < 500`, 2 for `s ≥ 500`. -/
def statusSeverity (s : ℤ) : ℕ :=
  if s ≥ 500 then 2 else if s ≥ 400 then 1 else 0

/-- The per-request metrics fields of a telemetry record that
`generate_scenario_metrics` reads back (`response_time_seconds`,
`success`, `health_score` under the record's `metrics` key). -/
structure ReqMetrics where
  response_time_seconds : ℚ
  success : Bool
  health_score : ℚ

/-- Nearest-rank percentile index used by `generate_scenario_metrics`:
Python's `int(len(response_times) * p)` (truncation toward zero, which is
the floor for the nonnegative products that occur). -/
def pIdx (p : ℚ) (n : ℕ) : ℕ :=
  (⌊p * n⌋).toNat

/-- `response_times[pIdx p len] if response_times else 0` from the
source's percentile lines. -/
def percentileOf (l : List ℚ) (p : ℚ) : ℚ :=
  if l = [] then 0 else l.getD (pIdx p l.length) 0

/-- The numeric and categorical fields of the `scenario_metrics` summary
produced by `generate_scenario_metrics`. -/
structure ScenarioSummary where
  total_requests : ℕ
  error_count : ℕ
  error_rate : ℚ
  slow_requests : ℕ
  slow_rate : ℚ
  average_response_time_seconds : ℚ
  average_health_score : ℚ
  p50_seconds : ℚ
  p95_seconds : ℚ
  p99_seconds : ℚ
  scenario_health : String
  performance_category : String
  reliability_score : ℚ

/-- `generate_scenario_metrics` from the source: counts, guarded-division
rates and averages, nearest-rank percentiles over the sorted elapsed
times, and the categorical operational summary.  Python's `sorted` /
`list.sort` is modelled by insertion sort, which agrees with any sort on a
list of rationals. -/
def generate_scenario_metrics (collected_data : List ReqMetrics) : ScenarioSummary :=
  let total_requests := collected_data.length
  let error_count := (collected_data.filter (fun r => !r.success)).length
  let slow_count := (collected_data.filter (fun r => r.response_time_seconds > 2)).length
  let avg_response_time :=
    (collected_data.map (fun r => r.response_time_seconds)).sum / ((max 1 total_requests : ℕ) : ℚ)
  let avg_health_score :=
    (collected_data.map (fun r => r.health_score)).sum / ((max 1 total_requests : ℕ) : ℚ)
  let response_times :=
    List.insertionSort (fun a b => a ≤ b) (collected_data.map (fun r => r.response_time_seconds))
  let p50 := percentileOf response_times (1/2)
  let p95 := percentileOf response_times (19/20)
  let p99 := percentileOf response_times (99/100)
  { total_requests := total_requests
    error_count := error_count
    error_rate := roundTo 4 ((error_count : ℚ) / ((max 1 total_requests : ℕ) : ℚ))
    slow_requests := slow_count
    slow_rate := roundTo 4 ((slow_count : ℚ) / ((max 1 total_requests : ℕ) : ℚ))
    average_response_time_seconds := roundTo 4 avg_response_time
    average_health_score := roundTo 2 avg_health_score
    p50_seconds := roundTo 4 p50
    p95_seconds := roundTo 4 p95
    p99_seconds := roundTo 4 p99
    scenario_health :=
      if avg_health_score > 80 then "healthy"
      else if avg_health_score > 50 then "degraded"
      else "unhealthy"
    performance_category := categorize_response_time avg_response_time
    reliability_score :=
      roundTo 2 ((1 - (error_count : ℚ) / ((max 1 total_requests : ℕ) : ℚ)) * 100) }

/-- JSON values, the shape of every record the generator persists as one
line of the output file. -/
inductive JVal where
  | jnull : JVal
  | jbool : Bool → JVal
  | jnum : ℚ → JVal
  | jstr : String → JVal
  | jarr : List JVal → JVal
  | jobj : List (String × JVal) → JVal

/-- First value bound to a key in an association list of JSON fields. -/
def getField : List (String × JVal) → String → Option JVal
  | [], _ => none
  | (k, v) :: rest, key => if k = key then some v else getField rest key

/-- Value of a key of a JSON object (`none` on non-objects). -/
def JVal.lookupKey : JVal → String → Option JVal
  | .jobj fields, key => getField fields key
  | _, _ => none

/-- Whether a JSON value is an object carrying the given key. -/
def JVal.hasKey (j : JVal) (key : String) : Bool :=
  (j.lookupKey key).isSome

/-- The `scenario_context` dictionary built by `run_scenario`. -/
structure ScenarioCtx where
  name : String
  description : String
  operational_context : String
  tags : List String
  start_time : String
  duration_minutes : ℚ

/-- The full scenario-context object as embedded in `scenario_start` and
`scenario_metrics` records. -/
def scenarioCtxObj (ctx : ScenarioCtx) : JVal :=
  .jobj [("name", .jstr ctx.name),
    ("description", .jstr ctx.description),
    ("operational_context", .jstr ctx.operational_context),
    ("tags", .jarr (ctx.tags.map JVal.jstr)),
    ("start_time", .jstr ctx.start_time),
    ("duration_minutes", .jnum ctx.duration_minutes)]

/-- The reduced scenario object embedded in per-request records
(`name`, `description`, `tags` only). -/
def scenarioSubObj (ctx : ScenarioCtx) : JVal :=
  .jobj [("name", .jstr ctx.name),
    ("description", .jstr ctx.description),
    ("tags", .jarr (ctx.tags.map JVal.jstr))]

/-- Kind of a transport failure raised by the HTTP client:
`timeout` for `requests.exceptions.Timeout`, `connectionError` for
`requests.exceptions.ConnectionError`, `other` for any other
`RequestException`. -/
inductive FailKind where
  | timeout : FailKind
  | connectionError : FailKind
  | other : FailKind

/-- `isinstance(e, requests.exceptions.Timeout)`. -/
def FailKind.isTimeout : FailKind → Bool
  | .timeout => true
  | _ => false

/-- `isinstance(e, requests.exceptions.ConnectionError)`. -/
def FailKind.isConnectionError : FailKind → Bool
  | .connectionError => true
  | _ => false

/-- What the response body looked like on the success path:
a JSON content-type whose body decodes to an object, a JSON content-type
whose body fails to decode (handled by the silent preview fallback), or a
non-JSON content-type (no body field is attached at all). -/
inductive BodyInfo where
  | jsonContent : List (String × JVal) → BodyInfo
  | jsonInvalid : String → BodyInfo
  | nonJson : BodyInfo

/-- The `service` section of a success record: static identity, with
`version` (and optionally `label`) surfaced from a decoded JSON body. -/
def serviceObj : BodyInfo → JVal
  | .jsonContent fields =>
    let version := match getField fields "version" with
      | some v => v
      | none => JVal.jstr "unknown"
    let base := [("name", JVal.jstr "observability-demo-app"),
      ("version", version),
      ("environment", JVal.jstr "local")]
    match getField fields "label" with
    | some l => JVal.jobj (base ++ [("label", l)])
    | none => JVal.jobj base
  | _ =>
    JVal.jobj [("name", JVal.jstr "observability-demo-app"),
      ("version", JVal.jstr "unknown"),
      ("environment", JVal.jstr "local")]

/-- The optional body field appended to a success record: decoded JSON
under `response_data`, or a 200-character preview under
`response_preview` when decoding failed. -/
def bodyExtraFields : BodyInfo → List (String × JVal)
  | .jsonContent fields => [("response_data", JVal.jobj fields)]
  | .jsonInvalid text => [("response_preview", JVal.jstr (text.take 200))]
  | .nonJson => []

/-- One HTTP attempt as observed by `capture_request_telemetry`: either a
response (status code, elapsed seconds, body size, user agent, body) or a
transport failure (kind, exception type name, message, elapsed seconds). -/
inductive Outcome where
  | success (status_code : ℤ) (duration : ℚ) (response_size_bytes : ℕ)
      (user_agent : String) (body : BodyInfo)
  | failure (kind : FailKind) (error_type : String) (error_message : String)
      (duration : ℚ)

/-- `capture_request_telemetry` from the source, as a function of the HTTP
outcome: the `http_request` record on success, the `http_request_error`
record on transport failure.  The wall-clock timestamp and the generated
request id are inputs. -/
def capture_request_telemetry (base_url endpoint ts request_id : String)
    (ctx : ScenarioCtx) (outcome : Outcome) : JVal :=
  match outcome with
  | .success status_code duration response_size_bytes user_agent body =>
    .jobj ([("timestamp", .jstr ts),
      ("log_level", .jstr "INFO"),
      ("event_type", .jstr "http_request"),
      ("request_id", .jstr request_id),
      ("scenario", scenarioSubObj ctx),
      ("http", .jobj [("method", .jstr "GET"),
        ("url", .jstr (base_url ++ endpoint)),
        ("endpoint", .jstr endpoint),
        ("status_code", .jnum (status_code : ℚ)),
        ("response_time_ms", .jnum (roundTo 2 (duration * 1000))),
        ("response_size_bytes", .jnum (response_size_bytes : ℚ)),
        ("user_agent", .jstr user_agent)]),
      ("metrics", .jobj [("response_time_seconds", .jnum (roundTo 4 duration)),
        ("response_time_category", .jstr (categorize_response_time duration)),
        ("success", .jbool (decide (status_code < 400))),
        ("client_error", .jbool (decide (400 ≤ status_code ∧ status_code < 500))),
        ("server_error", .jbool (decide (500 ≤ status_code))),
        ("health_score", .jnum (calculate_health_score status_code duration : ℚ))]),
      ("service", serviceObj body)] ++ bodyExtraFields body)
  | .failure kind error_type error_message duration =>
    .jobj [("timestamp", .jstr ts),
      ("log_level", .jstr "ERROR"),
      ("event_type", .jstr "http_request_error"),
      ("request_id", .jstr request_id),
      ("scenario", scenarioSubObj ctx),
      ("http", .jobj [("method", .jstr "GET"),
        ("url", .jstr (base_url ++ endpoint)),
        ("endpoint", .jstr endpoint),
        ("error_type", .jstr error_type),
        ("error_message", .jstr error_message),
        ("response_time_ms", .jnum (roundTo 2 (duration * 1000)))]),
      ("metrics", .jobj [("response_time_seconds", .jnum (roundTo 4 duration)),
        ("success", .jbool false),
        ("timeout", .jbool kind.isTimeout),
        ("connection_error", .jbool kind.isConnectionError),
        ("health_score", .jnum 0)]),
      ("service", .jobj [("name", .jstr "observability-demo-app"),
        ("version", .jstr "unknown"),
        ("environment", .jstr "local")])]

/-- The metrics fields of a record built by `capture_request_telemetry`,
as `generate_scenario_metrics` reads them back from the collected data. -/
def outcomeMetrics : Outcome → ReqMetrics
  | .success status_code duration _ _ _ =>
    { response_time_seconds := roundTo 4 duration
      success := decide (status_code < 400)
      health_score := (calculate_health_score status_code duration : ℚ) }
  | .failure _ _ _ duration =>
    { response_time_seconds := roundTo 4 duration
      success := false
      health_score := 0 }

/-- The `scenario_start` record persisted at the top of `run_scenario`. -/
def scenario_start_record (ts : String) (ctx : ScenarioCtx) : JVal :=
  .jobj [("timestamp", .jstr ts),
    ("log_level", .jstr "INFO"),
    ("event_type", .jstr "scenario_start"),
    ("scenario", scenarioCtxObj ctx),
    ("message", .jstr ("Starting telemetry collection: " ++ ctx.name))]

/-- The `scenario_metrics` record persisted at the end of `run_scenario`,
serialising a `ScenarioSummary`. -/
def scenario_metrics_record (ts : String) (ctx : ScenarioCtx)
    (s : ScenarioSummary) : JVal :=
  .jobj [("timestamp", .jstr ts),
    ("log_level", .jstr "INFO"),
    ("event_type", .jstr "scenario_metrics"),
    ("scenario", scenarioCtxObj ctx),
    ("metrics", .jobj [("total_requests", .jnum (s.total_requests : ℚ)),
      ("error_count", .jnum (s.error_count : ℚ)),
      ("error_rate", .jnum s.error_rate),
      ("slow_requests", .jnum (s.slow_requests : ℚ)),
      ("slow_rate", .jnum s.slow_rate),
      ("average_response_time_seconds", .jnum s.average_response_time_seconds),
      ("average_health_score", .jnum s.average_health_score),
      ("response_time_percentiles", .jobj [("p50_seconds", .jnum s.p50_seconds),
        ("p95_seconds", .jnum s.p95_seconds),
        ("p99_seconds", .jnum s.p99_seconds)])]),
    ("operational_summary", .jobj [("scenario_health", .jstr s.scenario_health),
      ("performance_category", .jstr s.performance_category),
      ("reliability_score", .jnum s.reliability_score)])]

/-- The `session_start` record written when the session begins. -/
def session_start_record (ts : String) (total_scenarios : ℕ)
    (base_url output_file : String) : JVal :=
  .jobj [("timestamp", .jstr ts),
    ("log_level", .jstr "INFO"),
    ("event_type", .jstr "session_start"),
    ("message", .jstr "Starting structured telemetry data collection session"),
    ("session_config", .jobj [("total_scenarios", .jnum (total_scenarios : ℚ)),
      ("base_url", .jstr base_url),
      ("output_file", .jstr output_file)])]

/-- The `session_complete` record written when the session ends. -/
def session_complete_record (ts output_file : String) : JVal :=
  .jobj [("timestamp", .jstr ts),
    ("log_level", .jstr "INFO"),
    ("event_type", .jstr "session_complete"),
    ("message", .jstr "Structured telemetry data collection session completed"),
    ("output_file", .jstr output_file)]

/-- One request iteration of `run_scenario`'s loop: the observation inputs
(timestamp, request id, chosen endpoint) and the HTTP outcome. -/
structure RequestInput where
  ts : String
  request_id : String
  endpoint : String
  outcome : Outcome

/-- Observation inputs of one whole scenario run. -/
structure ScenarioInput where
  start_ts : String
  ctx : ScenarioCtx
  requests : List RequestInput
  metrics_ts : String

/-- The sequence of records `run_scenario` appends to the output file: a
`scenario_start` record, one record per request, and the final
`scenario_metrics` record summarising the collected data. -/
def run_scenario (base_url : String) (inp : ScenarioInput) : List JVal :=
  scenario_start_record inp.start_ts inp.ctx ::
    (inp.requests.map (fun r =>
      capture_request_telemetry base_url r.endpoint r.ts r.request_id inp.ctx r.outcome) ++
    [scenario_metrics_record inp.metrics_ts inp.ctx
      (generate_scenario_metrics (inp.requests.map (fun r => outcomeMetrics r.outcome)))])

/-- Observation inputs of a full telemetry session. -/
structure SessionInput where
  start_ts : String
  base_url : String
  output_file : String
  scenarios : List ScenarioInput
  end_ts : String

/-- The sequence of records `run_full_telemetry_session` writes to the
output file: a `session_start` record, all records of each scenario in
order, and a final `session_complete` record. -/
def run_full_telemetry_session (inp : SessionInput) : List JVal :=
  session_start_record inp.start_ts inp.scenarios.length inp.base_url inp.output_file ::
    ((inp.scenarios.map (run_scenario inp.base_url)).flatten ++
    [session_complete_record inp.end_ts inp.output_file])

/-- The event-kind vocabulary of persisted records. -/
def eventKinds : List String :=
  ["session_start", "scenario_start", "http_request", "http_request_error",
   "scenario_metrics", "session_complete"]

/-- A persisted line is well formed when it is a JSON object carrying at
least `timestamp`, `log_level` and `event_type`, with the event type one
of the six event kinds. -/
def wellFormedLine (j : JVal) : Bool :=
  j.hasKey "timestamp" && j.hasKey "log_level" &&
    (match j.lookupKey "event_type" with
     | some (.jstr kind) => eventKinds.contains kind
     | _ => false)

/-- Value of a key inside the `metrics` section of a record. -/
def metricsField (j : JVal) (key : String) : Option JVal :=
  match j.lookupKey "metrics" with
  | some m => m.lookupKey key
  | none => none

/-- A concrete scenario context, used to evaluate the theorems on sample
inputs. -/
def sampleCtx : ScenarioCtx :=
  { name := "baseline_operations"
    description := "Normal operation patterns"
    operational_context := "Regular system monitoring"
    tags := ["baseline", "normal", "steady-state"]
    start_time := "2026-01-01T00:00:00"
    duration_minutes := 10 }

/-- A concrete session input with no scenarios, used to evaluate the
theorems on sample inputs. -/
def sampleSession : SessionInput :=
  { start_ts := "2026-01-01T00:00:00"
    base_url := "http://localhost:5000"
    output_file := "telemetry_data.jsonl"
    scenarios := []
    end_ts := "2026-01-01T01:00:00" }

theorem floor_le_roundHalfEven (x : ℚ) : ⌊x⌋ ≤ roundHalfEven x := by
  unfold roundHalfEven
  split_ifs <;> omega

theorem roundHalfEven_le_floor_add_one (x : ℚ) : roundHalfEven x ≤ ⌊x⌋ + 1 := by
  unfold roundHalfEven
  split_ifs <;> omega

theorem roundHalfEven_intCast (n : ℤ) : roundHalfEven (n : ℚ) = n := by
  unfold roundHalfEven
  rw [Int.floor_intCast]
  split_ifs with h1 <;> first | rfl | (exfalso; apply h1; norm_num)

theorem roundHalfEven_mono {x y : ℚ} (h : x ≤ y) :
    roundHalfEven x ≤ roundHalfEven y := by
  rcases eq_or_lt_of_le (Int.floor_mono h) with hf | hf
  · unfold roundHalfEven
    rw [← hf]
    split_ifs <;> first | omega | (exfalso; linarith)
  · calc roundHalfEven x ≤ ⌊x⌋ + 1 := roundHalfEven_le_floor_add_one x
      _ ≤ ⌊y⌋ := by omega
      _ ≤ roundHalfEven y := floor_le_roundHalfEven y

theorem roundHalfEven_even_sub (a : ℤ) (ha : a % 2 = 0) (x : ℚ) :
    roundHalfEven ((a : ℚ) - x) = a - roundHalfEven x := by
  by_cases hx : (⌊x⌋ : ℚ) = x
  · have h1 : roundHalfEven x = ⌊x⌋ := by
      conv_lhs => rw [← hx]
      rw [roundHalfEven_intCast]
    have h2 : (a : ℚ) - x = ((a - ⌊x⌋ : ℤ) : ℚ) := by
      push_cast
      rw [hx]
    rw [h1, h2, roundHalfEven_intCast]
  · have hfle : (⌊x⌋ : ℚ) ≤ x := Int.floor_le x
    have hflt : x < ⌊x⌋ + 1 := Int.lt_floor_add_one x
    have hxlt : (⌊x⌋ : ℚ) < x := lt_of_le_of_ne hfle hx
    have hfl : ⌊(a : ℚ) - x⌋ = a - ⌊x⌋ - 1 := by
      rw [Int.floor_eq_iff]
      constructor
      · push_cast; linarith
      · push_cast; linarith
    unfold roundHalfEven
    rw [hfl]
    push_cast
    split_ifs <;> first | omega | (exfalso; linarith)

theorem roundTo_mono (d : ℕ) {x y : ℚ} (h : x ≤ y) : roundTo d x ≤ roundTo d y := by
  have h2 : roundHalfEven (x * 10 ^ d) ≤ roundHalfEven (y * 10 ^ d) :=
    roundHalfEven_mono (mul_le_mul_of_nonneg_right h (by positivity))
  rw [roundTo, roundTo, div_eq_mul_inv, div_eq_mul_inv]
  apply mul_le_mul_of_nonneg_right _ (by positivity)
  exact_mod_cast h2

theorem roundTo_intCast (d : ℕ) (n : ℤ) : roundTo d (n : ℚ) = n := by
  unfold roundTo
  have h : ((n : ℚ)) * 10 ^ d = ((n * 10 ^ d : ℤ) : ℚ) := by push_cast; ring
  rw [h, roundHalfEven_intCast]
  push_cast
  field_simp

theorem roundTo_nonneg (d : ℕ) {x : ℚ} (hx : 0 ≤ x) : 0 ≤ roundTo d x := by
  have h := roundTo_mono d hx
  rwa [show ((0 : ℚ)) = ((0 : ℤ) : ℚ) by norm_num, roundTo_intCast] at h

theorem roundTo_le_one (d : ℕ) {x : ℚ} (hx : x ≤ 1) : roundTo d x ≤ 1 := by
  have h := roundTo_mono d hx
  rwa [show ((1 : ℚ)) = ((1 : ℤ) : ℚ) by norm_num, roundTo_intCast] at h

/-- Rounding commutes with the reliability-score formula: rounding
`(1 - e) * 100` to 2 decimal places agrees with first rounding `e` to 4
decimal places and then applying the formula exactly. -/
theorem roundTo_reliability (e : ℚ) :
    roundTo 2 ((1 - e) * 100) = (1 - roundTo 4 e) * 100 := by
  unfold roundTo
  have h1 : (1 - e) * 100 * 10 ^ 2 = ((10000 : ℤ) : ℚ) - e * 10 ^ 4 := by
    push_cast; ring
  rw [h1, roundHalfEven_even_sub 10000 (by norm_num)]
  push_cast
  ring

/-- C2: `calculate_health_score` agrees with the spec's reference
definition (independent status and latency deductions, clamped at 0) for
every status code and nonnegative elapsed time; in particular a 503
response at 0.05 s scores 50, and `categorize_response_time 0.05` is
"excellent". -/
theorem c2_health_score_matches_reference (s : ℤ) (t : ℚ) (ht : 0 ≤ t) :
    calculate_health_score s t = healthScoreRef s t ∧
    calculate_health_score 503 (1/20) = 50 ∧
    categorize_response_time (1/20) = "excellent" := by
  refine ⟨?_, by norm_num [calculate_health_score], by norm_num [categorize_response_time]⟩
  simp only [calculate_health_score, healthScoreRef]
  split_ifs <;> omega

theorem c2_health_score_matches_reference_witness :
    calculate_health_score 503 (1/20) = healthScoreRef 503 (1/20) ∧
    calculate_health_score 503 (1/20) = 50 ∧
    categorize_response_time (1/20) = "excellent" :=
  c2_health_score_matches_reference 503 (1/20) (by norm_num)

/-- C8: `categorize_response_time` is a total, non-overlapping partition
of the nonnegative reals into the five ordered buckets given by the
thresholds 0.1, 0.5, 1.0 and 3.0. -/
theorem c8_latency_buckets_partition (t : ℚ) (ht : 0 ≤ t) :
    (categorize_response_time t = "excellent" ↔ 0 ≤ t ∧ t < 1/10) ∧
    (categorize_response_time t = "good" ↔ 1/10 ≤ t ∧ t < 1/2) ∧
    (categorize_response_time t = "acceptable" ↔ 1/2 ≤ t ∧ t < 1) ∧
    (categorize_response_time t = "slow" ↔ 1 ≤ t ∧ t < 3) ∧
    (categorize_response_time t = "unacceptable" ↔ 3 ≤ t) := by
  unfold categorize_response_time
  split_ifs <;>
    refine ⟨⟨fun hh => ?_, fun hh => ?_⟩, ⟨fun hh => ?_, fun hh => ?_⟩,
      ⟨fun hh => ?_, fun hh => ?_⟩, ⟨fun hh => ?_, fun hh => ?_⟩,
      ⟨fun hh => ?_, fun hh => ?_⟩⟩ <;>
    first
      | rfl
      | exact absurd hh (by decide)
      | exact ⟨by linarith, by linarith⟩
      | linarith
      | (exfalso; rcases hh with ⟨hh1, hh2⟩; linarith)

theorem c8_latency_buckets_partition_witness :
    (categorize_response_time 0 = "excellent" ↔ 0 ≤ (0:ℚ) ∧ (0:ℚ) < 1/10) ∧
    (categorize_response_time 0 = "good" ↔ 1/10 ≤ (0:ℚ) ∧ (0:ℚ) < 1/2) ∧
    (categorize_response_time 0 = "acceptable" ↔ 1/2 ≤ (0:ℚ) ∧ (0:ℚ) < 1) ∧
    (categorize_response_time 0 = "slow" ↔ 1 ≤ (0:ℚ) ∧ (0:ℚ) < 3) ∧
    (categorize_response_time 0 = "unacceptable" ↔ 3 ≤ (0:ℚ)) :=
  c8_latency_buckets_partition 0 (by norm_num)

/-- C6: for every status code and nonnegative elapsed time the health
score lies in [0, 100]; it is non-increasing in the elapsed time and
non-increasing as the status code moves to a more severe bucket. -/
theorem c6_health_score_bounds_and_monotonicity (s : ℤ) (t : ℚ) (ht : 0 ≤ t) :
    (0 ≤ calculate_health_score s t ∧ calculate_health_score s t ≤ 100) ∧
    (∀ t2 : ℚ, t ≤ t2 → calculate_health_score s t2 ≤ calculate_health_score s t) ∧
    (∀ s2 : ℤ, statusSeverity s ≤ statusSeverity s2 →
      calculate_health_score s2 t ≤ calculate_health_score s t) := by
  refine ⟨?_, ?_, ?_⟩
  · simp only [calculate_health_score]
    split_ifs <;> omega
  · intro t2 h12
    simp only [calculate_health_score]
    split_ifs <;> first | omega | (exfalso; linarith)
  · intro s2 hsev
    simp only [statusSeverity] at hsev
    simp only [calculate_health_score]
    split_ifs at hsev ⊢ <;> first | omega | (exfalso; linarith)

theorem c6_health_score_bounds_and_monotonicity_witness :
    (0 ≤ calculate_health_score 200 0 ∧ calculate_health_score 200 0 ≤ 100) ∧
    calculate_health_score 200 5 ≤ calculate_health_score 200 0 ∧
    calculate_health_score 503 0 ≤ calculate_health_score 200 0 :=
  ⟨(c6_health_score_bounds_and_monotonicity 200 0 (by norm_num)).1,
   (c6_health_score_bounds_and_monotonicity 200 0 (by norm_num)).2.1 5 (by norm_num),
   (c6_health_score_bounds_and_monotonicity 200 0 (by norm_num)).2.2 503 (by decide)⟩

/-- C10: on the success path the health score is never below 20 (worst
case 100 - 50 - 30), so the clamp at 0 never binds there; a health score
of 0 comes only from a transport-failure record, whose metrics always
carry `health_score` 0. -/
theorem c10_zero_score_only_on_transport_failure (s : ℤ) (t : ℚ) (ht : 0 ≤ t) :
    20 ≤ calculate_health_score s t ∧
    ∀ base_url endpoint ts request_id ctx kind error_type error_message d,
      metricsField (capture_request_telemetry base_url endpoint ts request_id ctx
        (Outcome.failure kind error_type error_message d)) "health_score" =
      some (JVal.jnum 0) := by
  constructor
  · simp only [calculate_health_score]
    split_ifs <;> omega
  · intro base_url endpoint ts request_id ctx kind error_type error_message d
    rfl

theorem c10_zero_score_only_on_transport_failure_witness :
    20 ≤ calculate_health_score 200 0 ∧
    metricsField (capture_request_telemetry "http://localhost:5000" "/" "t0" "req_0"
      sampleCtx (Outcome.failure FailKind.timeout "ReadTimeout" "timed out" 10))
      "health_score" = some (JVal.jnum 0) :=
  ⟨(c10_zero_score_only_on_transport_failure 200 0 (by norm_num)).1,
   (c10_zero_score_only_on_transport_failure 200 0 (by norm_num)).2
     "http://localhost:5000" "/" "t0" "req_0" sampleCtx FailKind.timeout
     "ReadTimeout" "timed out" 10⟩

theorem pIdx_lt {p : ℚ} (hp0 : 0 ≤ p) (hp1 : p < 1) {n : ℕ} (hn : 1 ≤ n) :
    pIdx p n < n := by
  unfold pIdx
  have h1 : ⌊p * n⌋ < (n : ℤ) := by
    rw [Int.floor_lt]
    push_cast
    calc p * n < 1 * n := by
          apply mul_lt_mul_of_pos_right hp1
          exact_mod_cast Nat.lt_of_lt_of_le Nat.zero_lt_one hn
      _ = n := one_mul _
  omega

theorem pIdx_mono {p q : ℚ} (hpq : p ≤ q) (n : ℕ) :
    pIdx p n ≤ pIdx q n := by
  unfold pIdx
  have h := Int.floor_mono (mul_le_mul_of_nonneg_right hpq (by positivity : (0:ℚ) ≤ n))
  omega

theorem sorted_getD_mono {l : List ℚ} (hs : List.Sorted (fun a b : ℚ => a ≤ b) l)
    {i j : ℕ} (hij : i ≤ j) (hj : j < l.length) :
    l.getD i 0 ≤ l.getD j 0 := by
  have hi : i < l.length := lt_of_le_of_lt hij hj
  rw [List.getD_eq_getElem l 0 hi, List.getD_eq_getElem l 0 hj]
  rcases lt_or_eq_of_le hij with hlt | heq
  · exact List.pairwise_iff_getElem.mp hs i j hi hj hlt
  · subst heq
    exact le_refl _

theorem percentileOf_mono {st : List ℚ} (hs : List.Sorted (fun a b : ℚ => a ≤ b) st)
    (hne : st ≠ []) {p q : ℚ} (hp : 0 ≤ p) (hpq : p ≤ q) (hq : q < 1) :
    percentileOf st p ≤ percentileOf st q := by
  unfold percentileOf
  rw [if_neg hne, if_neg hne]
  exact sorted_getD_mono hs (pIdx_mono hpq st.length)
    (pIdx_lt (le_trans hp hpq) hq (List.length_pos.mpr hne))

/-- C3: for every non-empty list of elapsed times and each of the three
percentile fractions, the nearest-rank index used by
`generate_scenario_metrics` is a valid index into the list, so the
percentile lookup never goes out of bounds. -/
theorem c3_percentile_index_valid (l : List ℚ) (hl : l ≠ [])
    (p : ℚ) (hp : p = 1/2 ∨ p = 19/20 ∨ p = 99/100) :
    pIdx p l.length < l.length := by
  have hn : 1 ≤ l.length := List.length_pos.mpr hl
  rcases hp with h | h | h <;> subst h <;>
    exact pIdx_lt (by norm_num) (by norm_num) hn

theorem c3_percentile_index_valid_witness :
    pIdx (1/2) [(0:ℚ)].length < [(0:ℚ)].length :=
  c3_percentile_index_valid [0] (by simp) (1/2) (Or.inl rfl)

/-- C4: for every non-empty record list, the percentile fields of the
summary satisfy p50 ≤ p95 ≤ p99, because they are taken at non-decreasing
ranks of the same sorted list of elapsed times. -/
theorem c4_percentiles_monotone (ms : List ReqMetrics) (h : ms ≠ []) :
    (generate_scenario_metrics ms).p50_seconds ≤ (generate_scenario_metrics ms).p95_seconds ∧
    (generate_scenario_metrics ms).p95_seconds ≤ (generate_scenario_metrics ms).p99_seconds := by
  have hne : List.insertionSort (fun a b : ℚ => a ≤ b)
      (ms.map (fun r => r.response_time_seconds)) ≠ [] := by
    intro hc
    have h0 : (List.insertionSort (fun a b : ℚ => a ≤ b)
        (ms.map (fun r => r.response_time_seconds))).length = 0 := by
      rw [hc]; rfl
    rw [(List.perm_insertionSort _ _).length_eq, List.length_map] at h0
    exact h (List.length_eq_zero.mp h0)
  have hs := List.sorted_insertionSort (fun a b : ℚ => a ≤ b)
    (ms.map (fun r => r.response_time_seconds))
  constructor
  · exact roundTo_mono 4 (percentileOf_mono hs hne (by norm_num) (by norm_num) (by norm_num))
  · exact roundTo_mono 4 (percentileOf_mono hs hne (by norm_num) (by norm_num) (by norm_num))

theorem c4_percentiles_monotone_witness :
    (generate_scenario_metrics [⟨1/10, true, 100⟩]).p50_seconds ≤
      (generate_scenario_metrics [⟨1/10, true, 100⟩]).p95_seconds ∧
    (generate_scenario_metrics [⟨1/10, true, 100⟩]).p95_seconds ≤
      (generate_scenario_metrics [⟨1/10, true, 100⟩]).p99_seconds :=
  c4_percentiles_monotone [⟨1/10, true, 100⟩] (by simp)

/-- C5: the summary of the empty record list has rate, average and
percentile fields all equal to 0: the divisions are guarded by
`max 1 total_requests` and the percentile lookup short-circuits on the
empty sorted list instead of indexing it. -/
theorem c5_empty_summary_all_zero :
    (generate_scenario_metrics []).error_rate = 0 ∧
    (generate_scenario_metrics []).slow_rate = 0 ∧
    (generate_scenario_metrics []).average_response_time_seconds = 0 ∧
    (generate_scenario_metrics []).average_health_score = 0 ∧
    (generate_scenario_metrics []).p50_seconds = 0 ∧
    (generate_scenario_metrics []).p95_seconds = 0 ∧
    (generate_scenario_metrics []).p99_seconds = 0 := by
  have h4 : roundTo 4 0 = 0 := by
    have h := roundTo_intCast 4 0
    simpa using h
  have h2 : roundTo 2 0 = 0 := by
    have h := roundTo_intCast 2 0
    simpa using h
  refine ⟨?_, ?_, ?_, ?_, ?_, ?_, ?_⟩ <;>
    simp [generate_scenario_metrics, percentileOf, List.insertionSort, h4, h2]

/-- C1 as stated is false on the code: with 3 records of which exactly 1
is an error, the summary's `error_rate` field is the rounded value
0.3333, not the exact ratio 1/3. -/
theorem c1_counterexample :
    (generate_scenario_metrics
      [⟨1/10, false, 70⟩, ⟨1/5, true, 100⟩, ⟨3/10, true, 100⟩]).total_requests = 3 ∧
    (generate_scenario_metrics
      [⟨1/10, false, 70⟩, ⟨1/5, true, 100⟩, ⟨3/10, true, 100⟩]).error_count = 1 ∧
    (generate_scenario_metrics
      [⟨1/10, false, 70⟩, ⟨1/5, true, 100⟩, ⟨3/10, true, 100⟩]).error_rate ≠
      ((generate_scenario_metrics
        [⟨1/10, false, 70⟩, ⟨1/5, true, 100⟩, ⟨3/10, true, 100⟩]).error_count : ℚ) /
      ((generate_scenario_metrics
        [⟨1/10, false, 70⟩, ⟨1/5, true, 100⟩, ⟨3/10, true, 100⟩]).total_requests : ℚ) := by
  have hf : ⌊(1:ℚ)/3 * 10 ^ (4:ℕ)⌋ = 3333 := by
    rw [show ((1:ℚ)/3 * 10 ^ (4:ℕ)) = 10000/3 by norm_num]
    rw [Int.floor_eq_iff]
    constructor <;> norm_num
  have hr : roundTo 4 ((1:ℚ)/3) = 3333/10000 := by
    unfold roundTo roundHalfEven
    rw [hf]
    norm_num
  refine ⟨rfl, rfl, ?_⟩
  have he : (generate_scenario_metrics
      [⟨1/10, false, 70⟩, ⟨1/5, true, 100⟩, ⟨3/10, true, 100⟩]).error_rate =
      roundTo 4 ((1:ℚ)/3) := by
    simp only [generate_scenario_metrics]
    norm_num [List.filter]
  rw [he, hr]
  norm_num [generate_scenario_metrics, List.filter]

/-- C1 (amended): for a non-empty list of N records, the summary counts an
error iff the record's success flag is false and a slow record iff its
elapsed time exceeds 2.0 s; `error_rate` and `slow_rate` are the exact
ratios error_count/N and slow_count/N rounded half-even to 4 decimal
places; both rates lie in [0, 1]; and
`reliability_score = (1 - error_rate) * 100` holds exactly. -/
theorem c1_rates_follow_counts (ms : List ReqMetrics) (h : ms ≠ []) :
    (generate_scenario_metrics ms).error_count =
      (ms.filter (fun r => r.success = false)).length ∧
    (generate_scenario_metrics ms).slow_requests =
      (ms.filter (fun r => r.response_time_seconds > 2)).length ∧
    (generate_scenario_metrics ms).error_rate =
      roundTo 4 (((generate_scenario_metrics ms).error_count : ℚ) / (ms.length : ℚ)) ∧
    (generate_scenario_metrics ms).slow_rate =
      roundTo 4 (((generate_scenario_metrics ms).slow_requests : ℚ) / (ms.length : ℚ)) ∧
    0 ≤ (generate_scenario_metrics ms).error_rate ∧
    (generate_scenario_metrics ms).error_rate ≤ 1 ∧
    0 ≤ (generate_scenario_metrics ms).slow_rate ∧
    (generate_scenario_metrics ms).slow_rate ≤ 1 ∧
    (generate_scenario_metrics ms).reliability_score =
      (1 - (generate_scenario_metrics ms).error_rate) * 100 := by
  have hn : 0 < ms.length := List.length_pos.mpr h
  have hmax : (max 1 ms.length : ℕ) = ms.length := by omega
  have hNpos : (0:ℚ) < (ms.length : ℚ) := by exact_mod_cast hn
  have hediv0 : (0:ℚ) ≤ ((ms.filter (fun r => !r.success)).length : ℚ) / (ms.length : ℚ) :=
    div_nonneg (by positivity) (le_of_lt hNpos)
  have hediv1 : ((ms.filter (fun r => !r.success)).length : ℚ) / (ms.length : ℚ) ≤ 1 := by
    rw [div_le_one hNpos]
    exact_mod_cast List.length_filter_le _ _
  have hsdiv0 : (0:ℚ) ≤
      ((ms.filter (fun r => r.response_time_seconds > 2)).length : ℚ) / (ms.length : ℚ) :=
    div_nonneg (by positivity) (le_of_lt hNpos)
  have hsdiv1 :
      ((ms.filter (fun r => r.response_time_seconds > 2)).length : ℚ) / (ms.length : ℚ) ≤ 1 := by
    rw [div_le_one hNpos]
    exact_mod_cast List.length_filter_le _ _
  have hfe : ms.filter (fun r => !r.success) = ms.filter (fun r => r.success = false) := by
    apply List.filter_congr
    intro r _
    cases hb : r.success <;> rfl
  refine ⟨?_, ?_, ?_, ?_, ?_, ?_, ?_, ?_, ?_⟩
  · simp only [generate_scenario_metrics]
    rw [hfe]
  · simp only [generate_scenario_metrics]
  · simp only [generate_scenario_metrics, hmax]
  · simp only [generate_scenario_metrics, hmax]
  · simp only [generate_scenario_metrics, hmax]
    exact roundTo_nonneg 4 hediv0
  · simp only [generate_scenario_metrics, hmax]
    exact roundTo_le_one 4 hediv1
  · simp only [generate_scenario_metrics, hmax]
    exact roundTo_nonneg 4 hsdiv0
  · simp only [generate_scenario_metrics, hmax]
    exact roundTo_le_one 4 hsdiv1
  · simp only [generate_scenario_metrics, hmax]
    exact roundTo_reliability _

theorem c1_rates_follow_counts_witness :
    (generate_scenario_metrics [⟨1/10, false, 70⟩]).error_count =
      (([⟨1/10, false, 70⟩] : List ReqMetrics).filter (fun r => r.success = false)).length ∧
    (generate_scenario_metrics [⟨1/10, false, 70⟩]).slow_requests =
      (([⟨1/10, false, 70⟩] : List ReqMetrics).filter
        (fun r => r.response_time_seconds > 2)).length ∧
    (generate_scenario_metrics [⟨1/10, false, 70⟩]).error_rate =
      roundTo 4 (((generate_scenario_metrics [⟨1/10, false, 70⟩]).error_count : ℚ) /
        ((([⟨1/10, false, 70⟩] : List ReqMetrics)).length : ℚ)) ∧
    (generate_scenario_metrics [⟨1/10, false, 70⟩]).slow_rate =
      roundTo 4 (((generate_scenario_metrics [⟨1/10, false, 70⟩]).slow_requests : ℚ) /
        ((([⟨1/10, false, 70⟩] : List ReqMetrics)).length : ℚ)) ∧
    0 ≤ (generate_scenario_metrics [⟨1/10, false, 70⟩]).error_rate ∧
    (generate_scenario_metrics [⟨1/10, false, 70⟩]).error_rate ≤ 1 ∧
    0 ≤ (generate_scenario_metrics [⟨1/10, false, 70⟩]).slow_rate ∧
    (generate_scenario_metrics [⟨1/10, false, 70⟩]).slow_rate ≤ 1 ∧
    (generate_scenario_metrics [⟨1/10, false, 70⟩]).reliability_score =
      (1 - (generate_scenario_metrics [⟨1/10, false, 70⟩]).error_rate) * 100 :=
  c1_rates_follow_counts [⟨1/10, false, 70⟩] (by simp)

/-- C7: a transport-failure record always has health score 0 and success
false, its `timeout` and `connection_error` flags reflect the failure
kind, and its metrics carry no `response_time_category` key; a transport
timeout in particular yields timeout = true and connection_error =
false. -/
theorem c7_failure_record_fields (base_url endpoint ts request_id : String)
    (ctx : ScenarioCtx) (kind : FailKind) (error_type error_message : String)
    (d : ℚ) :
    metricsField (capture_request_telemetry base_url endpoint ts request_id ctx
      (Outcome.failure kind error_type error_message d)) "health_score" =
      some (JVal.jnum 0) ∧
    metricsField (capture_request_telemetry base_url endpoint ts request_id ctx
      (Outcome.failure kind error_type error_message d)) "success" =
      some (JVal.jbool false) ∧
    metricsField (capture_request_telemetry base_url endpoint ts request_id ctx
      (Outcome.failure kind error_type error_message d)) "timeout" =
      some (JVal.jbool kind.isTimeout) ∧
    metricsField (capture_request_telemetry base_url endpoint ts request_id ctx
      (Outcome.failure kind error_type error_message d)) "connection_error" =
      some (JVal.jbool kind.isConnectionError) ∧
    metricsField (capture_request_telemetry base_url endpoint ts request_id ctx
      (Outcome.failure kind error_type error_message d)) "response_time_category" =
      none ∧
    FailKind.timeout.isTimeout = true ∧
    FailKind.timeout.isConnectionError = false :=
  ⟨rfl, rfl, rfl, rfl, rfl, rfl, rfl⟩

theorem wellFormedLine_capture (base_url endpoint ts request_id : String)
    (ctx : ScenarioCtx) (outcome : Outcome) :
    wellFormedLine
      (capture_request_telemetry base_url endpoint ts request_id ctx outcome) = true := by
  cases outcome <;> rfl

theorem wellFormedLine_run_scenario {base_url : String} {inp : ScenarioInput}
    {r : JVal} (hr : r ∈ run_scenario base_url inp) : wellFormedLine r = true := by
  unfold run_scenario at hr
  rcases List.mem_cons.mp hr with h | h
  · subst h
    rfl
  · rcases List.mem_append.mp h with h2 | h2
    · rcases List.mem_map.mp h2 with ⟨ri, _, h3⟩
      subst h3
      exact wellFormedLine_capture _ _ _ _ _ _
    · rw [List.mem_singleton.mp h2]
      rfl

/-- C9: every record in the persisted trace of a full telemetry session
is a JSON object carrying at least the keys `timestamp`, `log_level` and
`event_type`, and its event type is one of the six event kinds
`session_start`, `scenario_start`, `http_request`, `http_request_error`,
`scenario_metrics`, `session_complete`. -/
theorem c9_persisted_lines_well_formed (inp : SessionInput) (r : JVal)
    (hr : r ∈ run_full_telemetry_session inp) : wellFormedLine r = true := by
  unfold run_full_telemetry_session at hr
  rcases List.mem_cons.mp hr with h | h
  · subst h
    rfl
  · rcases List.mem_append.mp h with h2 | h2
    · rcases List.mem_flatten.mp h2 with ⟨l, hl, hrl⟩
      rcases List.mem_map.mp hl with ⟨sc, _, h4⟩
      subst h4
      exact wellFormedLine_run_scenario hrl
    · rw [List.mem_singleton.mp h2]
      rfl

theorem c9_persisted_lines_well_formed_witness :
    wellFormedLine (session_start_record "2026-01-01T00:00:00" 0
      "http://localhost:5000" "telemetry_data.jsonl") = true :=
  c9_persisted_lines_well_formed sampleSession
    (session_start_record "2026-01-01T00:00:00" 0
      "http://localhost:5000" "telemetry_data.jsonl")
    (by simp [run_full_telemetry_session, sampleSession])
